import Mathlib

/-!
# FireBreath `FactoryBase.h` — verification of the factory/lifecycle contract

A shallow embedding of the plugin-factory contract declared in
`src/src/PluginCore/FactoryBase.h`.  The header is an interface declaration:
the lifecycle counting, the default method bodies and the singleton accessor
live elsewhere in the FireBreath tree, so those parts are modelled faithfully
from the specification's own words (each such definition is marked
`Modelled from the spec:`).  The declaration surface of the header itself
(which methods exist, their parameters, their virtual-ness) is embedded
directly from the source text.
-/

namespace FB

/-- An event on the active-plugin population: a plugin instance is created,
or a plugin instance is destroyed. -/
inductive PluginEvent : Type
  | create : PluginEvent
  | destroy : PluginEvent
deriving DecidableEq, Repr

/-- The two global lifecycle hooks of `FactoryBase`
(`globalPluginInitialize` and `globalPluginDeinitialize`). -/
inductive Hook : Type
  | ginit : Hook
  | gdeinit : Hook
deriving DecidableEq, Repr

/-- Modelled from the spec: the framework state that surrounds the factory.
`count` is the active-plugin count, `created` the number of successful
creates so far, `destroyed` the number of completed destroys so far.
The implementation of this counter is not in `FactoryBase.h`; it is the
"explicit lifecycle manager object tracking a count" of the spec. -/
structure LifecycleState : Type where
  count : Nat
  created : Nat
  destroyed : Nat
deriving DecidableEq, Repr

/-- The initial lifecycle state: no plugin has ever existed. -/
def LifecycleState.init : LifecycleState := ⟨0, 0, 0⟩

/-- Modelled from the spec: one lifecycle transition.
A create always succeeds and increments the count; it fires
`globalPluginInitialize` exactly when the count goes 0 to 1.
A destroy completes only when a live plugin exists (count > 0); it then
decrements the count and fires `globalPluginDeinitialize` exactly when the
count goes 1 to 0.  A destroy with no live plugin is not a completed
destroy and changes nothing. -/
def lifecycleStep (s : LifecycleState) : PluginEvent → LifecycleState × List Hook
  | .create =>
      (⟨s.count + 1, s.created + 1, s.destroyed⟩,
       if s.count = 0 then [.ginit] else [])
  | .destroy =>
      if s.count = 0 then (s, [])
      else (⟨s.count - 1, s.created, s.destroyed + 1⟩,
            if s.count = 1 then [.gdeinit] else [])

/-- Run a sequence of create/destroy events from a state, collecting the
hook invocations in order. -/
def lifecycleRun (s : LifecycleState) : List PluginEvent → LifecycleState × List Hook
  | [] => (s, [])
  | e :: es =>
      let p := lifecycleStep s e
      let q := lifecycleRun p.1 es
      (q.1, p.2 ++ q.2)

/-- The state reached after a sequence of events, from the initial state. -/
def runState (es : List PluginEvent) : LifecycleState :=
  (lifecycleRun LifecycleState.init es).1

/-- The hook-invocation trace of a sequence of events, from the initial
state. -/
def runHooks (es : List PluginEvent) : List Hook :=
  (lifecycleRun LifecycleState.init es).2

/-- The counting invariant of a lifecycle state: the active count is the
number of successful creates minus the number of completed destroys, and
the subtraction never goes below zero. -/
def countInv (s : LifecycleState) : Prop :=
  (s.count : Int) = (s.created : Int) - (s.destroyed : Int) ∧ s.destroyed ≤ s.created

lemma countInv_init : countInv LifecycleState.init := by
  constructor <;> simp [LifecycleState.init, countInv]

lemma countInv_step (s : LifecycleState) (e : PluginEvent) (h : countInv s) :
    countInv (lifecycleStep s e).1 := by
  obtain ⟨h1, h2⟩ := h
  cases e with
  | create =>
      refine ⟨?_, ?_⟩
      · simp [lifecycleStep]; omega
      · simp [lifecycleStep]; omega
  | destroy =>
      by_cases hc : s.count = 0
      · simpa [lifecycleStep, hc] using ⟨h1, h2⟩
      · refine ⟨?_, ?_⟩
        · simp [lifecycleStep, hc]; omega
        · simp [lifecycleStep, hc]; omega

lemma countInv_run (s : LifecycleState) (es : List PluginEvent) (h : countInv s) :
    countInv (lifecycleRun s es).1 := by
  induction es generalizing s with
  | nil => simpa [lifecycleRun] using h
  | cons e es ih =>
      simp only [lifecycleRun]
      exact ih _ (countInv_step s e h)

/-- The hook a run can fire next, as a function of the current count:
from count 0 the next hook (if any) is `globalPluginInitialize`; from a
positive count the next hook (if any) is `globalPluginDeinitialize`. -/
def expectedHook (c : Nat) : Hook :=
  if c = 0 then Hook.ginit else Hook.gdeinit

lemma step_hooks_cases (s : LifecycleState) (e : PluginEvent) :
    ((lifecycleStep s e).2 = [] ∧
        expectedHook (lifecycleStep s e).1.count = expectedHook s.count) ∨
      ((lifecycleStep s e).2 = [expectedHook s.count] ∧
        expectedHook (lifecycleStep s e).1.count ≠ expectedHook s.count) := by
  cases e with
  | create =>
      by_cases hc : s.count = 0
      · right; simp [lifecycleStep, expectedHook, hc]
      · left; simp [lifecycleStep, expectedHook, hc]
  | destroy =>
      by_cases hc : s.count = 0
      · left; simp [lifecycleStep, expectedHook, hc]
      · by_cases h1 : s.count = 1
        · right; simp [lifecycleStep, expectedHook, hc, h1]
        · left
          have hne : s.count - 1 ≠ 0 := by omega
          simp [lifecycleStep, expectedHook, hc, h1, hne]

lemma hooks_chain_head (s : LifecycleState) (es : List PluginEvent) :
    List.Chain' (fun a b => a ≠ b) (lifecycleRun s es).2 ∧
      ∀ h ∈ ((lifecycleRun s es).2).head?, h = expectedHook s.count := by
  induction es generalizing s with
  | nil => simp [lifecycleRun]
  | cons e es ih =>
      obtain ⟨ihc, ihh⟩ := ih (lifecycleStep s e).1
      simp only [lifecycleRun]
      rcases step_hooks_cases s e with ⟨h0, he⟩ | ⟨h1, h2⟩
      · rw [h0, List.nil_append]
        exact ⟨ihc, fun h hh => (ihh h hh).trans he⟩
      · rw [h1, List.singleton_append]
        constructor
        · rw [List.chain'_cons']
          refine ⟨?_, ihc⟩
          intro b hb
          rw [ihh b hb]
          exact h2.symm
        · intro h hh
          simp only [List.head?_cons, Option.mem_def, Option.some.injEq] at hh
          exact hh.symm

/-- A created user plugin object (a `FB::PluginCore` instance), opaque to the
factory beyond its identity. -/
structure PluginCoreObj : Type where
  id : Nat
deriving DecidableEq, Repr

/-- Modelled from the spec: the framework call site that wraps the user's
`createPlugin` override (the override itself is pure virtual, its body is not
in this header).  `impl` is the user implementation, which returns a plugin
reference on success and `none` to signal failure.  On success the new plugin
is counted as created (a create transition of the lifecycle state); on any
non-success no plugin is counted and the state is untouched. -/
def frameworkCreate (impl : String → Option PluginCoreObj)
    (s : LifecycleState) (mimetype : String) :
    Option PluginCoreObj × LifecycleState × List Hook :=
  match impl mimetype with
  | some p => (some p, (lifecycleStep s PluginEvent.create).1,
               (lifecycleStep s PluginEvent.create).2)
  | none => (none, s, [])

/-- A factory object; identity is modelled by a tag. -/
structure FactoryObj : Type where
  id : Nat
deriving DecidableEq, Repr

/-- Modelled from the spec: `getFactoryInstance`, the process-wide accessor,
construct-on-first-use.  The cache is the process-wide static storage
(`none` before first use); the call returns the factory and the updated
cache. -/
def getFactoryInstance (cache : Option FactoryObj) :
    FactoryObj × Option FactoryObj :=
  match cache with
  | some f => (f, some f)
  | none => (⟨0⟩, some ⟨0⟩)

/-- The immutable configuration of the factory (sourced from
`PluginConfig.cmake`): the plugin name and description; `none` models an
unset entry. -/
structure FactoryConfig : Type where
  pluginName : Option String
  pluginDescription : Option String

/-- Modelled from the spec: `getPluginName()` — a pure query of the immutable
configuration, returning the empty string when unset. -/
def getPluginName (cfg : FactoryConfig) : String :=
  cfg.pluginName.getD ""

/-- Modelled from the spec: `getPluginDescription()` — a pure query of the
immutable configuration, returning the empty string when unset. -/
def getPluginDescription (cfg : FactoryConfig) : String :=
  cfg.pluginDescription.getD ""

/-- Modelled from the spec: the content-type-qualified overload
`getPluginName(mimetype)`.  As of this version the content-type parameter is
not wired through, so the framework-provided behavior ignores it. -/
def getPluginNameMT (cfg : FactoryConfig) (mimetype : String) : String :=
  getPluginName cfg

/-- Modelled from the spec: the content-type-qualified overload
`getPluginDescription(mimetype)`; the parameter is not wired through. -/
def getPluginDescriptionMT (cfg : FactoryConfig) (mimetype : String) : String :=
  getPluginDescription cfg

/-- Modelled from the spec: the content type the framework actually hands to
`createPlugin`.  As of 1.3 the requested mimetype is not wired in, so the
value passed is independent of the request. -/
def wiredMimetype (requested : String) : String := ""

/-- Modelled from the spec: the framework creation pipeline as driven by an
object-tag request: the requested content type is accepted but not wired
through to `createPlugin`. -/
def pipelineCreate (impl : String → Option PluginCoreObj)
    (s : LifecycleState) (requested : String) :
    Option PluginCoreObj × LifecycleState × List Hook :=
  frameworkCreate impl s (wiredMimetype requested)

/-- The full system state: the immutable factory configuration next to the
mutable lifecycle state. -/
structure SystemState : Type where
  config : FactoryConfig
  lifecycle : LifecycleState

/-- One system transition: a create/destroy event changes only the lifecycle
part of the state. -/
def sysStep (st : SystemState) (e : PluginEvent) : SystemState :=
  { st with lifecycle := (lifecycleStep st.lifecycle e).1 }

/-- Run a sequence of create/destroy events over the system state. -/
def sysRun (st : SystemState) : List PluginEvent → SystemState
  | [] => st
  | e :: es => sysRun (sysStep st e) es

lemma sysRun_config (st : SystemState) (es : List PluginEvent) :
    (sysRun st es).config = st.config := by
  induction es generalizing st with
  | nil => rfl
  | cons e es ih => simpa [sysRun, sysStep] using ih (sysStep st e)

/-- Modelled from the spec: log severity levels consumed by the logging
subsystem (`FB::Log::LogLevel`; `logging.h` is not part of this excerpt).
`info` is the framework's conservative default. -/
inductive LogLevel : Type
  | trace | debug | info | warn | error
deriving DecidableEq, Repr

/-- Modelled from the spec: a log sink descriptor
(an entry of `FB::Log::LogMethodList`). -/
structure LogMethod : Type where
  kind : String
  target : String
deriving DecidableEq, Repr

/-- Modelled from the spec: the sinks the default `getLoggingMethods` adds —
none (the safe default is an empty sink list). -/
def defaultLoggingMethods : List LogMethod := []

/-- The compile-time platform of a build. -/
inductive Platform : Type
  | win | mac | x11
deriving DecidableEq, Repr

/-- The NPAPI plugin handler object a `createNpapiPlugin` call produces:
one of the framework's default handler types, or a user-substituted custom
handler. -/
inductive NpapiPluginKind : Type
  | npapiPluginWin | npapiPluginMac | npapiPluginX11 | custom (name : String)
deriving DecidableEq, Repr

/-- Modelled from the spec: the default `createNpapiPlugin` creates a
`NpapiPluginWin`, `NpapiPluginX11`, or `NpapiPluginMac` depending on the
compiled platform. -/
def defaultNpapiPlugin : Platform → NpapiPluginKind
  | .win => .npapiPluginWin
  | .mac => .npapiPluginMac
  | .x11 => .npapiPluginX11

/-- A user factory subclass, as the set of optional overrides it supplies;
`none` means the framework default is used. -/
structure UserFactory : Type where
  loggingOverride : Option (List LogMethod)
  levelOverride : Option LogLevel
  npapiOverride : Option (Platform → String → NpapiPluginKind)

/-- Modelled from the spec: `getLoggingMethods(outMethods)` — populates the
caller-supplied sink list; the default adds no sink. -/
def getLoggingMethods (f : UserFactory) (outMethods : List LogMethod) :
    List LogMethod :=
  outMethods ++ (f.loggingOverride.getD defaultLoggingMethods)

/-- Modelled from the spec: `getLogLevel()` — the configured minimum
severity, with the conservative default when not overridden. -/
def getLogLevel (f : UserFactory) : LogLevel :=
  f.levelOverride.getD LogLevel.info

/-- The logging subsystem's configuration, assembled at its setup time. -/
structure LoggerConfig : Type where
  sinks : List LogMethod
  level : LogLevel
deriving DecidableEq, Repr

/-- Modelled from the spec: the logging subsystem queries the factory once,
during its own setup, for the sink list and the log level. -/
def loggerSetup (f : UserFactory) : LoggerConfig :=
  ⟨getLoggingMethods f [], getLogLevel f⟩

/-- Modelled from the spec: `createNpapiPlugin(host, mimetype)` — dispatches
to the user's override when one is supplied and otherwise to the framework's
platform default handler (which does not consult the mimetype). -/
def createNpapiPlugin (f : UserFactory) (p : Platform) (mimetype : String) :
    NpapiPluginKind :=
  match f.npapiOverride with
  | some g => g p mimetype
  | none => defaultNpapiPlugin p

/-- A platform window-creation method as declared in `FactoryBase.h`:
its name, the conditional-compilation guard it sits under, the type of its
window-context parameter (`none` when the method takes no argument), and the
handler type its returned pointer points to. -/
structure WindowMethodDecl : Type where
  name : String
  guard : String
  contextType : Option String
  returnType : String
deriving DecidableEq, Repr

/-- The platform window-creation methods declared in `FactoryBase.h`
(lines 207-294), transcribed from the source text. -/
def windowCreationMethods : List WindowMethodDecl :=
  [⟨"createPluginWindowWin", "FB_WIN",
      some "WindowContextWin", "PluginWindowWin"⟩,
   ⟨"createPluginWindowless", "FB_WIN",
      some "WindowContextWindowless", "PluginWindowlessWin"⟩,
   ⟨"createPluginWindowCarbonQD", "FB_MACOSX",
      some "WindowContextQuickDraw", "PluginWindowMacCarbonQD"⟩,
   ⟨"createPluginWindowCarbonCG", "FB_MACOSX",
      some "WindowContextCoreGraphics", "PluginWindowMacCarbonCG"⟩,
   ⟨"createPluginWindowCocoaCG", "FB_MACOSX",
      none, "PluginWindowMacCocoaCG"⟩,
   ⟨"createPluginWindowCocoaCA", "FB_MACOSX",
      none, "PluginWindowMacCocoaCA"⟩,
   ⟨"createPluginWindowCocoaICA", "FB_MACOSX",
      none, "PluginWindowMacCocoaICA"⟩,
   ⟨"createPluginWindowX11", "FB_X11",
      some "WindowContextX11", "PluginWindowX11"⟩]

/-- The Cocoa window-creation methods: the ones declared with an empty
parameter list in `FactoryBase.h` (lines 262, 270, 280). -/
def cocoaWindowMethodNames : List String :=
  ["createPluginWindowCocoaCG", "createPluginWindowCocoaCA",
   "createPluginWindowCocoaICA"]

/-- A member-function declaration of class `FactoryBase`: its name and
whether the source declares it `virtual`, and pure (`= 0`). -/
structure CppMethodDecl : Type where
  name : String
  isVirtual : Bool
  isPure : Bool
deriving DecidableEq, Repr

/-- The member functions of `FactoryBase` as declared in `FactoryBase.h`,
transcribed from the source text (one entry per name; the two overload
pairs `getPluginName`/`getPluginDescription` share one declaration form,
both overloads being declared without `virtual`). -/
def factoryBaseDecls : List CppMethodDecl :=
  [⟨"createPlugin", true, true⟩,
   ⟨"globalPluginInitialize", true, false⟩,
   ⟨"globalPluginDeinitialize", true, false⟩,
   ⟨"getPluginName", false, false⟩,
   ⟨"getPluginDescription", false, false⟩,
   ⟨"createNpapiPlugin", true, false⟩,
   ⟨"getLoggingMethods", false, false⟩,
   ⟨"getLogLevel", false, false⟩,
   ⟨"createPluginWindowWin", true, false⟩,
   ⟨"createPluginWindowless", true, false⟩,
   ⟨"createCOMJSObject", true, false⟩,
   ⟨"UpdateWindowsRegistry", true, false⟩,
   ⟨"createPluginWindowCarbonQD", true, false⟩,
   ⟨"createPluginWindowCarbonCG", true, false⟩,
   ⟨"createPluginWindowCocoaCG", true, false⟩,
   ⟨"createPluginWindowCocoaCA", true, false⟩,
   ⟨"createPluginWindowCocoaICA", true, false⟩,
   ⟨"createPluginWindowX11", true, false⟩]

/-- The four accessors whose declarations in `FactoryBase.h` carry no
`virtual` keyword. -/
def nonVirtualAccessorNames : List String :=
  ["getPluginName", "getPluginDescription", "getLoggingMethods",
   "getLogLevel"]

/-- Which implementation a call through the factory interface reaches. -/
inductive ResolvedImpl : Type
  | base | derived
deriving DecidableEq, Repr

/-- C++ member dispatch on a base-typed reference: a `virtual` member
resolves to the subclass override when the subclass supplies one; a
non-virtual member always resolves to the base implementation. -/
def resolveCall (m : CppMethodDecl) (overridden : String → Bool) :
    ResolvedImpl :=
  if m.isVirtual && overridden m.name then .derived else .base

/-- Sanity check: the spec's scenario — three creates, three destroys, one
more create — fires the hooks init, deinit, init, in that order. -/
lemma lifecycle_scenario :
    runHooks [PluginEvent.create, PluginEvent.create, PluginEvent.create,
      PluginEvent.destroy, PluginEvent.destroy, PluginEvent.destroy,
      PluginEvent.create] = [Hook.ginit, Hook.gdeinit, Hook.ginit] := by
  decide

/-- Sanity check: three creates in sequence reach count 3. -/
lemma lifecycle_scenario_count :
    (runState [PluginEvent.create, PluginEvent.create,
      PluginEvent.create]).count = 3 := by
  decide

/-- C1: `globalPluginInitialize` fires exactly at each 0-to-1 transition of
the active-plugin count and `globalPluginDeinitialize` exactly at each
1-to-0 transition, and over every sequence of create/destroy operations the
hook trace never repeats a hook without the other one in between. -/
theorem C1_global_hooks_alternate :
    (∀ (s : LifecycleState) (e : PluginEvent),
        (lifecycleStep s e).2 = [Hook.ginit] ↔
          s.count = 0 ∧ (lifecycleStep s e).1.count = 1) ∧
    (∀ (s : LifecycleState) (e : PluginEvent),
        (lifecycleStep s e).2 = [Hook.gdeinit] ↔
          s.count = 1 ∧ (lifecycleStep s e).1.count = 0) ∧
    (∀ es : List PluginEvent,
        List.Chain' (fun a b => a ≠ b) (runHooks es)) := by
  refine ⟨?_, ?_, ?_⟩
  · intro s e
    cases e with
    | create =>
        by_cases hc : s.count = 0 <;> simp [lifecycleStep, hc]
    | destroy =>
        by_cases hc : s.count = 0
        · simp [lifecycleStep, hc]
        · by_cases h1 : s.count = 1 <;> simp [lifecycleStep, hc, h1]
  · intro s e
    cases e with
    | create =>
        by_cases hc : s.count = 0 <;> simp [lifecycleStep, hc]
    | destroy =>
        by_cases hc : s.count = 0
        · simp [lifecycleStep, hc]
        · by_cases h1 : s.count = 1 <;> simp [lifecycleStep, hc, h1]
  · intro es
    exact (hooks_chain_head LifecycleState.init es).1

/-- C2: after any prefix of create/destroy operations the active-plugin
count equals the number of successful creates minus the number of completed
destroys, and it is never negative. -/
theorem C2_active_count_invariant (es : List PluginEvent) :
    ((runState es).count : Int)
        = ((runState es).created : Int) - ((runState es).destroyed : Int) ∧
    (runState es).destroyed ≤ (runState es).created ∧
    0 ≤ ((runState es).count : Int) := by
  have h := countInv_run LifecycleState.init es countInv_init
  exact ⟨h.1, h.2, Int.natCast_nonneg _⟩

/-- C3: for every content-type input, the creation call either returns a
plugin reference, in which case exactly one plugin is counted as created, or
signals failure, in which case the lifecycle state is untouched and no hook
fires; a returned handle and a reported failure are mutually exclusive. -/
theorem C3_createPlugin_outcomes (impl : String → Option PluginCoreObj)
    (s : LifecycleState) (mt : String) :
    (∀ p, (frameworkCreate impl s mt).1 = some p →
        (frameworkCreate impl s mt).2.1.count = s.count + 1 ∧
        (frameworkCreate impl s mt).2.1.created = s.created + 1) ∧
    ((frameworkCreate impl s mt).1 = none →
        (frameworkCreate impl s mt).2.1 = s ∧
        (frameworkCreate impl s mt).2.2 = []) ∧
    ¬((frameworkCreate impl s mt).1.isSome = true ∧
        (frameworkCreate impl s mt).1 = none) := by
  cases h : impl mt <;>
    simp [frameworkCreate, h, lifecycleStep]

/-- Witness for C3 at a concrete implementation, state and content type. -/
theorem C3_createPlugin_outcomes_witness :
    (frameworkCreate (fun m => some ⟨1⟩) LifecycleState.init
        "text/html").2.1.count = LifecycleState.init.count + 1 ∧
    (frameworkCreate (fun m => none) LifecycleState.init
        "text/html").2.1 = LifecycleState.init :=
  ⟨((C3_createPlugin_outcomes (fun m => some ⟨1⟩) LifecycleState.init
      "text/html").1 ⟨1⟩ rfl).1,
   ((C3_createPlugin_outcomes (fun m => none) LifecycleState.init
      "text/html").2.1 rfl).1⟩

/-- C4: the factory accessor is idempotent — a second call returns the same
instance and leaves the cache unchanged — and the process-wide cache holds
exactly the returned instance, so one live factory exists with stable
identity. -/
theorem C4_factory_singleton (cache : Option FactoryObj) :
    (getFactoryInstance (getFactoryInstance cache).2).1
        = (getFactoryInstance cache).1 ∧
    (getFactoryInstance (getFactoryInstance cache).2).2
        = (getFactoryInstance cache).2 ∧
    (getFactoryInstance cache).2 = some (getFactoryInstance cache).1 := by
  cases cache <;> simp [getFactoryInstance]

/-- C5: the name and description accessors, unqualified and content-type
qualified, are pure queries of the immutable configuration: their values are
identical before and after any sequence of create/destroy operations, and
when the configuration is unset they return the empty string rather than
failing. -/
theorem C5_accessors_pure (st : SystemState) (es : List PluginEvent)
    (mt : String) :
    getPluginName (sysRun st es).config = getPluginName st.config ∧
    getPluginDescription (sysRun st es).config
        = getPluginDescription st.config ∧
    getPluginNameMT (sysRun st es).config mt = getPluginNameMT st.config mt ∧
    getPluginDescriptionMT (sysRun st es).config mt
        = getPluginDescriptionMT st.config mt ∧
    getPluginName ⟨none, none⟩ = "" ∧
    getPluginDescription ⟨none, none⟩ = "" := by
  have h := sysRun_config st es
  refine ⟨?_, ?_, ?_, ?_, rfl, rfl⟩ <;>
    simp [h, getPluginNameMT, getPluginDescriptionMT]

/-- C6: the content-type string is advisory in this version: the
framework-provided behavior of the qualified name/description lookups, the
creation pipeline, and the default NPAPI-plugin dispatch is identical for
every pair of content-type strings. -/
theorem C6_mimetype_advisory (cfg : FactoryConfig) (r1 r2 : String) :
    getPluginNameMT cfg r1 = getPluginNameMT cfg r2 ∧
    getPluginDescriptionMT cfg r1 = getPluginDescriptionMT cfg r2 ∧
    wiredMimetype r1 = wiredMimetype r2 ∧
    (∀ (impl : String → Option PluginCoreObj) (s : LifecycleState),
        pipelineCreate impl s r1 = pipelineCreate impl s r2) ∧
    (∀ (l : Option (List LogMethod)) (lv : Option LogLevel) (p : Platform),
        createNpapiPlugin ⟨l, lv, none⟩ p r1
          = createNpapiPlugin ⟨l, lv, none⟩ p r2) :=
  ⟨rfl, rfl, rfl, fun impl s => rfl, fun l lv p => rfl⟩

/-- C7 counterexample: `createPluginWindowCocoaCG` is a platform
window-creation method of the factory declared with an empty parameter
list, so not every window-creation method takes a window-context value. -/
theorem C7_counterexample :
    WindowMethodDecl.mk "createPluginWindowCocoaCG" "FB_MACOSX" none
        "PluginWindowMacCocoaCG" ∈ windowCreationMethods ∧
    (WindowMethodDecl.mk "createPluginWindowCocoaCG" "FB_MACOSX" none
        "PluginWindowMacCocoaCG").contextType = none ∧
    ¬(∀ m ∈ windowCreationMethods, m.contextType.isSome = true) := by
  decide

/-- C7 (amended): every platform window-creation method returns an owning
pointer to a concrete window-handler type; the Windows, windowless, Carbon
and X11 methods each take a platform-specific window-context value, while
the three Cocoa methods take no window-context argument. -/
theorem C7_window_methods_amended (m : WindowMethodDecl)
    (hm : m ∈ windowCreationMethods) :
    "PluginWindow".data.isPrefixOf m.returnType.data = true ∧
    (m.name ∈ cocoaWindowMethodNames → m.contextType = none) ∧
    (m.name ∉ cocoaWindowMethodNames → m.contextType.isSome = true) := by
  have h : ∀ x ∈ windowCreationMethods,
      "PluginWindow".data.isPrefixOf x.returnType.data = true ∧
      (x.name ∈ cocoaWindowMethodNames → x.contextType = none) ∧
      (x.name ∉ cocoaWindowMethodNames → x.contextType.isSome = true) := by
    decide
  exact h m hm

/-- Witness for C7's amended theorem at two concrete declarations. -/
theorem C7_window_methods_amended_witness :
    (WindowMethodDecl.mk "createPluginWindowCocoaCG" "FB_MACOSX" none
        "PluginWindowMacCocoaCG").contextType = none ∧
    (WindowMethodDecl.mk "createPluginWindowWin" "FB_WIN"
        (some "WindowContextWin") "PluginWindowWin").contextType.isSome
          = true :=
  ⟨(C7_window_methods_amended _ (by decide)).2.1 (by decide),
   (C7_window_methods_amended (WindowMethodDecl.mk "createPluginWindowWin"
      "FB_WIN" (some "WindowContextWin") "PluginWindowWin")
      (by decide)).2.2 (by decide)⟩

/-- C8: the logging subsystem assembles its configuration at setup time from
the factory's two queries, and the defaults are safe — the default
`getLoggingMethods` adds no sink and the default log level is the
conservative `info` — so a user factory that overrides neither still yields
a well-formed logger configuration. -/
theorem C8_logging_defaults :
    (loggerSetup ⟨none, none, none⟩).sinks = [] ∧
    (loggerSetup ⟨none, none, none⟩).level = LogLevel.info ∧
    (∀ out : List LogMethod,
        getLoggingMethods ⟨none, none, none⟩ out = out) ∧
    (∀ f : UserFactory,
        loggerSetup f = ⟨getLoggingMethods f [], getLogLevel f⟩) :=
  ⟨rfl, rfl, fun out => by
      simp [getLoggingMethods, defaultLoggingMethods],
   fun f => rfl⟩

/-- C9: a factory that does not override `createNpapiPlugin` gets the
framework default, which produces the framework's own default handler for
the compiled platform — `NpapiPluginWin`, `NpapiPluginMac` or
`NpapiPluginX11` — and an overriding factory substitutes exactly its own
strategy. -/
theorem C9_npapi_default_dispatch :
    (∀ (p : Platform) (mt : String),
        createNpapiPlugin ⟨none, none, none⟩ p mt = defaultNpapiPlugin p) ∧
    defaultNpapiPlugin Platform.win = NpapiPluginKind.npapiPluginWin ∧
    defaultNpapiPlugin Platform.mac = NpapiPluginKind.npapiPluginMac ∧
    defaultNpapiPlugin Platform.x11 = NpapiPluginKind.npapiPluginX11 ∧
    (∀ (g : Platform → String → NpapiPluginKind) (p : Platform)
        (mt : String),
        createNpapiPlugin ⟨none, none, some g⟩ p mt = g p mt) :=
  ⟨fun p mt => rfl, rfl, rfl, rfl, fun g p mt => rfl⟩

/-- C10: the four accessors are declared without `virtual` in
`FactoryBase.h`, each is present in the declaration table, and under C++
member dispatch a call to any of them through the factory interface reaches
the base implementation no matter which methods a subclass overrides. -/
theorem C10_nonvirtual_accessors (m : CppMethodDecl)
    (hm : m ∈ factoryBaseDecls) (hname : m.name ∈ nonVirtualAccessorNames)
    (ov : String → Bool) :
    m.isVirtual = false ∧
    resolveCall m ov = ResolvedImpl.base ∧
    nonVirtualAccessorNames ⊆ factoryBaseDecls.map CppMethodDecl.name := by
  have h : ∀ x ∈ factoryBaseDecls,
      x.name ∈ nonVirtualAccessorNames → x.isVirtual = false := by decide
  have hv := h m hm hname
  refine ⟨hv, ?_, by decide⟩
  simp [resolveCall, hv]

/-- Witness for C10 at `getPluginName` against a subclass overriding
everything it can. -/
theorem C10_nonvirtual_accessors_witness :
    (CppMethodDecl.mk "getPluginName" false false).isVirtual = false ∧
    resolveCall (CppMethodDecl.mk "getPluginName" false false)
        (fun x => true) = ResolvedImpl.base ∧
    nonVirtualAccessorNames ⊆ factoryBaseDecls.map CppMethodDecl.name :=
  C10_nonvirtual_accessors (CppMethodDecl.mk "getPluginName" false false)
    (by decide) (by decide) (fun x => true)

end FB

